import Mathlib

/-!
Verification of the kubeless function controller
(`pkg/controller/function_controller.go`) and the parts of `pkg/utils`
pinned by `pkg/utils/k8sutil_test.go`.

Shallow embedding conventions:
* Kubernetes API calls performed by the controller are modelled by an
  environment record that fixes the result of each call (`Res`); the
  controller code that consumes those results is translated directly.
* Go maps of strings are modelled as association lists; Go slices as
  lists.  The `*metav1.Time` deletion timestamp is modelled as an
  optional allocated cell (`Option TimePtr`): `nil`-ness by `Option`,
  the allocation identity by an address, and the held time alongside
  it, because the code compares these fields by pointer, never by the
  time they hold.
* A Go runtime panic (index out of range) is a distinguished outcome
  (`EnsureOutcome.panicked`), so the embedding stays total.
* Functions of `pkg/utils` whose implementation is not part of the
  source tree (only `k8sutil_test.go` is) are modelled from the spec;
  their doc comments start with "Modelled from the spec:".
-/

namespace Kubeless

/-- Result of a single Kubernetes API call, as observed by the caller:
either success or a typed error. -/
inductive KError : Type where
  | notFound
  | alreadyExists
  | other (msg : String)
deriving DecidableEq, Repr

/-- `k8sErrors.IsNotFound`. -/
def KError.isNotFound : KError → Bool
  | .notFound => true
  | _ => false

/-- `k8sErrors.IsAlreadyExists`. -/
def KError.isAlreadyExists : KError → Bool
  | .alreadyExists => true
  | _ => false

/-- The `error` return value of a Go call: `nil` (`ok`) or an error. -/
inductive Res : Type where
  | ok
  | err (e : KError)
deriving DecidableEq, Repr

/-- The recurring Go pattern `if err != nil && !k8sErrors.IsNotFound(err)
{ return err }`: a not-found error is swallowed, everything else is kept. -/
def tolerateNotFound : Res → Res
  | .ok => .ok
  | .err e => if e.isNotFound then .ok else .err e

/-- A deployment, restricted to the fields the controller reads or
writes: object annotations and the replica count override. -/
structure Deployment : Type where
  annotations : List (String × String)
  replicas : Option Nat
deriving DecidableEq, Repr

/-- Metric source types of `autoscaling/v2beta1`. -/
inductive MetricType : Type where
  | object
  | pods
  | resource
  | external
deriving DecidableEq, Repr

/-- A `HorizontalPodAutoscaler`, restricted to the fields the controller
reads or writes: its name, owner references, the scale target name and
the metric list. -/
structure HorizontalPodAutoscaler : Type where
  name : String
  ownerReferences : List String
  scaleTargetName : String
  metrics : List MetricType
deriving DecidableEq, Repr

/-- `kubelessApi.FunctionSpec`, restricted to the fields the controller
consumes: `Function` (the source code), `Handler`, `FunctionContentType`,
`Deps`, `Timeout`, `Runtime`, the deployment override and the
autoscaler override. -/
structure FunctionSpec : Type where
  function : String
  handler : String
  functionContentType : String
  deps : String
  timeout : String
  runtime : String
  deployment : Deployment
  horizontalPodAutoscaler : HorizontalPodAutoscaler
deriving DecidableEq, Repr

/-- An allocated `metav1.Time`: its allocation identity (the pointer
address) and the time it holds.  The controller never reads the time:
only `nil`-ness (`processItem`, line 212) and pointer equality
(`functionObjChanged`, line 367) are consulted.  Distinct allocations
carry distinct addresses. -/
structure TimePtr : Type where
  addr : Nat
  time : Nat
deriving DecidableEq, Repr

/-- Go pointer inequality on `*metav1.Time`: two nil pointers are
equal, nil differs from non-nil, and two non-nil pointers differ
exactly when they are distinct allocations. -/
def ptrNe (p q : Option TimePtr) : Bool :=
  match p, q with
  | none, none => false
  | some a, some b => if a.addr = b.addr then false else true
  | _, _ => true

/-- `kubelessApi.Function`: object metadata (name, namespace, labels,
resource version, deletion timestamp, finalizers) plus the spec. -/
structure Function : Type where
  name : String
  ns : String
  labels : List (String × String)
  resourceVersion : String
  deletionTimestamp : Option TimePtr
  finalizers : List String
  spec : FunctionSpec
deriving DecidableEq, Repr

/-- The `functionFinalizer` constant of the controller. -/
def functionFinalizer : String := "kubeless.io/function"

/-- `maxRetries` constant of the controller. -/
def maxRetries : Nat := 5

/-- `functionObjChanged` from `function_controller.go`: an update is
reconciliation-worthy when the deletion timestamp *pointers* differ
(line 367 compares the `*metav1.Time` fields with `!=`, a pointer
comparison), or the resource version changed and one of the watched
spec fields differs.  The local names mirror the source, which binds
`newSpec` to the old object's spec and `oldSpec` to the new one's; all
comparisons are symmetric so the swap is inert. -/
def functionObjChanged (oldFunctionObj newFunctionObj : Function) : Bool :=
  if ptrNe oldFunctionObj.deletionTimestamp newFunctionObj.deletionTimestamp then
    true
  else if oldFunctionObj.resourceVersion = newFunctionObj.resourceVersion then
    false
  else
    let newSpec := oldFunctionObj.spec
    let oldSpec := newFunctionObj.spec
    if newSpec.function ≠ oldSpec.function ∨
        newSpec.handler ≠ oldSpec.handler ∨
        newSpec.functionContentType ≠ oldSpec.functionContentType ∨
        newSpec.deps ≠ oldSpec.deps ∨
        newSpec.timeout ≠ oldSpec.timeout then
      true
    else if ¬(newSpec.deployment = oldSpec.deployment) ∨
        ¬(newSpec.horizontalPodAutoscaler = oldSpec.horizontalPodAutoscaler) then
      true
    else
      false

/-- The `UpdateFunc` event handler enqueues the key exactly when
`functionObjChanged` holds (the key function cannot fail on a named
object, so the error branch is inert). -/
def updateFuncEnqueues (oldFunctionObj newFunctionObj : Function) : Bool :=
  functionObjChanged oldFunctionObj newFunctionObj

/-- The owned resource kinds the controller deletes, plus the finalizer
itself, used to record which API deletions a run attempted. -/
inductive ResKind : Type where
  | deployment
  | service
  | configMap
  | serviceMonitor
  | autoscaler
deriving DecidableEq, Repr

/-- Results the cluster API returns for each delete call issued by
`deleteK8sResources` / `deleteAutoscale`. -/
structure DeleteEnv : Type where
  deleteDeployment : Res
  deleteService : Res
  deleteConfigMap : Res
  deleteServiceMonitor : Res
  deleteAutoscaler : Res
deriving DecidableEq, Repr

/-- `deleteAutoscale` from `function_controller.go`: when the monitoring
client is available, delete the service monitor (not-found tolerated);
then delete the autoscaler (not-found tolerated).  Returns the final
error value and the list of deletions attempted, in order. -/
def deleteAutoscale (smPresent : Bool) (smRes asRes : Res) :
    Res × List ResKind :=
  let sm : Res × List ResKind :=
    if smPresent then (tolerateNotFound smRes, [ResKind.serviceMonitor])
    else (Res.ok, [])
  match sm with
  | (.err e, att) => (.err e, att)
  | (.ok, att) => (tolerateNotFound asRes, att ++ [ResKind.autoscaler])

/-- `deleteK8sResources` from `function_controller.go`: delete the
deployment (background propagation), service and config map, each
tolerating not-found, then `deleteAutoscale`, whose result is filtered
through the same not-found check once more.  Returns the final error
value and the deletions attempted, in order. -/
def deleteK8sResources (smPresent : Bool) (env : DeleteEnv) :
    Res × List ResKind :=
  match tolerateNotFound env.deleteDeployment with
  | .err e => (.err e, [ResKind.deployment])
  | .ok =>
    match tolerateNotFound env.deleteService with
    | .err e => (.err e, [ResKind.deployment, ResKind.service])
    | .ok =>
      match tolerateNotFound env.deleteConfigMap with
      | .err e => (.err e, [ResKind.deployment, ResKind.service, ResKind.configMap])
      | .ok =>
        let asr := deleteAutoscale smPresent env.deleteServiceMonitor env.deleteAutoscaler
        (tolerateNotFound asr.1,
          [ResKind.deployment, ResKind.service, ResKind.configMap] ++ asr.2)

/-- Results the cluster API returns for each call issued on the ensure
path of the controller. -/
structure EnsureEnv : Type where
  ensureConfigMap : Res
  ensureService : Res
  ensureDeployment : Res
  createServiceMonitor : Res
  createAutoscaler : Res
  deleteServiceMonitor : Res
  deleteAutoscaler : Res
deriving DecidableEq, Repr

/-- Go map assignment `labels["function"] = name` on a string map that
is materialized first when empty. -/
def setLabel (l : List (String × String)) (k v : String) :
    List (String × String) :=
  (k, v) :: l.filter (fun p => p.1 ≠ k)

/-- Modelled from the spec: `MergeDeployments` (`pkg/utils`, whose
implementation is not under `src/`) deep-merges the cluster default
template (`src`) into the function's deployment override (`dst`);
user-supplied fields win and default-only fields are preserved. -/
def mergeDeployments (dst src : Deployment) : Deployment :=
  { annotations :=
      dst.annotations ++
        src.annotations.filter (fun p => dst.annotations.all (fun q => q.1 ≠ p.1)),
    replicas :=
      match dst.replicas with
      | some n => some n
      | none => src.replicas }

/-- Outcome of one ensure (or process) attempt.  `panicked` is the Go
runtime panic raised by an out-of-range slice index. -/
inductive EnsureOutcome : Type where
  | panicked
  | failed (e : KError)
  | succeeded
deriving DecidableEq, Repr

/-- What `ensureK8sResources` did: the outcome, the function object
after the call (the Go code mutates it in place through the shared
pointer), whether a service monitor and an autoscaler were created, and
which autoscaler-related deletions the else-branch attempted. -/
structure EnsureResult : Type where
  outcome : EnsureOutcome
  fn : Function
  createdServiceMonitor : Bool
  createdAutoscaler : Bool
  autoscaleDeleteAttempted : List ResKind
deriving DecidableEq, Repr

/-- `ensureK8sResources` from `function_controller.go`, with the cluster
default deployment template already parsed (`cfg`; `none` when the
config map has no "deployment" key).  The label write, the template
merge and the owner-reference write act on the very object passed in,
as the Go code does through the shared pointer; the updated object is
returned in the result.  `GetFunctionOwnerReference` (a pure accessor in
`pkg/utils`, not under `src/`) is modelled as always succeeding. -/
def ensureK8sResources (smPresent : Bool) (cfg : Option Deployment)
    (env : EnsureEnv) (funcObj : Function) : EnsureResult :=
  let fn1 : Function :=
    { funcObj with labels := setLabel funcObj.labels "function" funcObj.name }
  let fn2 : Function :=
    match cfg with
    | some tmpl =>
      { fn1 with spec := { fn1.spec with
          deployment := mergeDeployments fn1.spec.deployment tmpl } }
    | none => fn1
  let ownerRefs : List String := [fn2.name]
  match env.ensureConfigMap with
  | .err e => ⟨.failed e, fn2, false, false, []⟩
  | .ok =>
    match env.ensureService with
    | .err e => ⟨.failed e, fn2, false, false, []⟩
    | .ok =>
      match env.ensureDeployment with
      | .err e => ⟨.failed e, fn2, false, false, []⟩
      | .ok =>
        if fn2.spec.horizontalPodAutoscaler.name ≠ "" ∧
            fn2.spec.horizontalPodAutoscaler.scaleTargetName ≠ "" then
          let fn3 : Function :=
            { fn2 with spec := { fn2.spec with
                horizontalPodAutoscaler := { fn2.spec.horizontalPodAutoscaler with
                  ownerReferences := ownerRefs } } }
          match fn3.spec.horizontalPodAutoscaler.metrics.head? with
          | none => ⟨.panicked, fn3, false, false, []⟩
          | some m =>
            if m = MetricType.object then
              match env.createServiceMonitor with
              | .err e => ⟨.failed e, fn3, false, false, []⟩
              | .ok =>
                match env.createAutoscaler with
                | .err e => ⟨.failed e, fn3, true, false, []⟩
                | .ok => ⟨.succeeded, fn3, true, true, []⟩
            else
              match env.createAutoscaler with
              | .err e => ⟨.failed e, fn3, false, false, []⟩
              | .ok => ⟨.succeeded, fn3, false, true, []⟩
        else
          let asr := deleteAutoscale smPresent env.deleteServiceMonitor env.deleteAutoscaler
          match tolerateNotFound asr.1 with
          | .err e => ⟨.failed e, fn2, false, false, asr.2⟩
          | .ok => ⟨.succeeded, fn2, false, false, asr.2⟩

/-- Results the cluster API returns for the calls a whole `processItem`
run may issue. -/
structure ProcessEnv : Type where
  del : DeleteEnv
  removeFinalizerRes : Res
  addFinalizerRes : Res
  ensure : EnsureEnv
deriving DecidableEq, Repr

/-- What one `processItem` run did: the outcome, whether the finalizer
was removed from the object, which deletions were attempted, and the
object after the run (`none` when it was absent from the cache). -/
structure ProcessOutcome : Type where
  result : EnsureOutcome
  finalizerRemoved : Bool
  deletesAttempted : List ResKind
  fn : Option Function
deriving DecidableEq, Repr

/-- `processItem` from `function_controller.go`.  `cached` is the cache
lookup result for the key.  The finalizer add/remove helpers of
`pkg/utils` (not under `src/`) are modelled from the spec: on success
they attach, respectively clear, the controller's finalizer on the
object. -/
def processItem (smPresent : Bool) (cfg : Option Deployment)
    (cached : Option Function) (env : ProcessEnv) : ProcessOutcome :=
  match cached with
  | none => ⟨.succeeded, false, [], none⟩
  | some funcObj =>
    match funcObj.deletionTimestamp with
    | some _ =>
      if functionFinalizer ∈ funcObj.finalizers then
        let dres := deleteK8sResources smPresent env.del
        match dres.1 with
        | .err e => ⟨.failed e, false, dres.2, some funcObj⟩
        | .ok =>
          match env.removeFinalizerRes with
          | .err e => ⟨.failed e, false, dres.2, some funcObj⟩
          | .ok =>
            ⟨.succeeded, true, dres.2,
              some { funcObj with
                finalizers := funcObj.finalizers.filter (fun f => f ≠ functionFinalizer) }⟩
      else
        ⟨.succeeded, false, [], some funcObj⟩
    | none =>
      if functionFinalizer ∈ funcObj.finalizers then
        let r := ensureK8sResources smPresent cfg env.ensure funcObj
        ⟨r.outcome, false, [], some r.fn⟩
      else
        match env.addFinalizerRes with
        | .err e => ⟨.failed e, false, [], some funcObj⟩
        | .ok =>
          let funcObj2 : Function :=
            { funcObj with finalizers := funcObj.finalizers ++ [functionFinalizer] }
          let r := ensureK8sResources smPresent cfg env.ensure funcObj2
          ⟨r.outcome, false, [], some r.fn⟩

/-- What `processNextItem` did with the key after `processItem`
returned: whether the key was re-enqueued with rate-limited backoff,
whether the error was handed to the process-wide error reporter
(`utilruntime.HandleError`), and the key's requeue counter afterwards.
The client-go rate limiter bookkeeping is modelled as a per-key counter:
`AddRateLimited` increments it, `Forget` clears it. -/
structure RetryOutcome : Type where
  requeued : Bool
  reported : Bool
  numRequeuesAfter : Nat
deriving DecidableEq, Repr

/-- The retry logic of `processNextItem` from `function_controller.go`,
given the key's current requeue count and the result of `processItem`. -/
def processNextItemRetry (numRequeues : Nat) (res : Res) : RetryOutcome :=
  match res with
  | .ok => ⟨false, false, 0⟩
  | .err _ =>
    if numRequeues < maxRetries then ⟨true, false, numRequeues + 1⟩
    else ⟨false, true, 0⟩

/-- A delete call result the code treats as success: genuine success or
not-found. -/
def tolerable (r : Res) : Prop :=
  r = Res.ok ∨ r = Res.err KError.notFound

/-- A runtime registry entry: runtime identifier, source file extension,
dependency manifest file name and container image. -/
structure RuntimeInfo : Type where
  id : String
  fileExt : String
  depsFile : String
  image : String
deriving DecidableEq, Repr

/-- Registry lookup by runtime identifier. -/
def findRuntime (reg : List RuntimeInfo) (rt : String) : Option RuntimeInfo :=
  reg.find? (fun ri => ri.id = rt)

/-- The runtimes the fake test configuration
(`langruntime.AddFakeConfig`) registers, as pinned by
`k8sutil_test.go`: python runtimes with extension `py` and dependency
manifest `requirements.txt`; `cobol` is unregistered. -/
def fakeRegistry : List RuntimeInfo :=
  [⟨"python2.7", "py", "requirements.txt",
      "kubeless/python@sha256:0f3b64b654df5326198e481cd26e73ecccd905aae60810fc9baea4dcbb61f697"⟩,
   ⟨"python3.4", "py", "requirements.txt",
      "kubeless/python@sha256:python34"⟩]

/-- The module name: the part of the handler before the first dot
(`strings.Split(handler, ".")[0]`). -/
def modName (handler : String) : String :=
  String.mk (handler.toList.takeWhile (fun c => c ≠ '.'))

/-- Modelled from the spec: the `ConfigMap.Data` synthesized by
`EnsureFuncConfigMap` (`pkg/utils/k8sutil.go`, whose implementation is
not under `src/`): `handler` plus `<module>.<ext>` mapping to the
source code (the module name alone when the runtime is unregistered);
a dependency-manifest entry when the dependency descriptor is non-empty,
omitted silently when the runtime is unregistered.  This path never
hard-fails, so the map is total. -/
def configMapData (reg : List RuntimeInfo)
    (runtime handler source deps : String) : List (String × String) :=
  match findRuntime reg runtime with
  | some ri =>
    [("handler", handler), (modName handler ++ "." ++ ri.fileExt, source)] ++
      (if deps ≠ "" then [(ri.depsFile, deps)] else [])
  | none => [("handler", handler), (modName handler, source)]

/-- The deployment fields `EnsureFuncDeployment` decides: the main
container image and the init containers (by name). -/
structure DeploymentPods : Type where
  image : String
  initContainers : List String
deriving DecidableEq, Repr

/-- Modelled from the spec: `EnsureFuncDeployment`
(`pkg/utils/k8sutil.go`, whose implementation is not under `src/`).
The image is the explicit override when given, otherwise resolved from
the runtime registry.  A non-empty dependency descriptor with an
unknown runtime is a hard failure whatever the image override:
`TestEnsureDeployment`'s `f7` case carries the image `test-image`
(written into the container slice it shares with the `f3` case) and
still requires an error, so the failure cannot depend on the override
being absent.  An init container (`prepare`) stages dependencies
exactly when the dependency descriptor is non-empty and the runtime is
known; for an unknown runtime with no dependencies the init container
is skipped without error. -/
def ensureFuncDeployment (reg : List RuntimeInfo)
    (runtime deps imageOverride : String) : Except String DeploymentPods :=
  match findRuntime reg runtime with
  | some ri =>
    Except.ok
      ⟨if imageOverride ≠ "" then imageOverride else ri.image,
        if deps ≠ "" then ["prepare"] else []⟩
  | none =>
    if deps ≠ "" then
      Except.error ("The given runtime is not valid: " ++ runtime)
    else
      Except.ok ⟨imageOverride, []⟩

/-- A cluster object as the applier sees it: the server-assigned
resource version plus the synthesized payload. -/
structure KObject : Type where
  resourceVersion : String
  payload : String
deriving DecidableEq, Repr

/-- One API action the applier issued, in order. -/
inductive ApplyAction : Type where
  | create (o : KObject)
  | get
  | update (o : KObject)
deriving DecidableEq, Repr

/-- Modelled from the spec: the Resource Applier protocol
(`EnsureCronJob` and the other ensure helpers of `pkg/utils`, whose
implementations are not under `src/`): attempt a create; on an
already-exists conflict, fetch the stored object, carry its
server-assigned resource version into the freshly synthesized
definition, and update.  `createRes` and `updateRes` are the API results
for the create and update calls, `stored` the object a fetch returns. -/
def applyResource (desired : KObject) (createRes : Res) (stored : KObject)
    (updateRes : Res) : Res × List ApplyAction :=
  match createRes with
  | .ok => (.ok, [ApplyAction.create desired])
  | .err e =>
    if e.isAlreadyExists then
      let upd : KObject := { desired with resourceVersion := stored.resourceVersion }
      match updateRes with
      | .ok => (.ok, [ApplyAction.create desired, ApplyAction.get, ApplyAction.update upd])
      | .err e2 =>
        (.err e2, [ApplyAction.create desired, ApplyAction.get, ApplyAction.update upd])
    else
      (.err e, [ApplyAction.create desired])

/-- A deployment with no annotations and no replica override. -/
def sampleDeployment : Deployment := ⟨[], none⟩

/-- An absent autoscaler spec (no name, no scale target). -/
def hpaAbsent : HorizontalPodAutoscaler := ⟨"", [], "", []⟩

/-- A plain function spec used as a concrete test vector. -/
def sampleSpec : FunctionSpec :=
  ⟨"function", "foo.bar", "text", "deps", "", "python2.7", sampleDeployment, hpaAbsent⟩

/-- A live function carrying the controller's finalizer. -/
def sampleFn : Function :=
  ⟨"f1", "default", [], "1", none, [functionFinalizer], sampleSpec⟩

/-- `sampleFn` marked for deletion. -/
def fnMarkedForDeletion : Function :=
  { sampleFn with deletionTimestamp := some ⟨1, 1⟩ }

/-- A deletion-marked function as held in the informer cache: its
timestamp lives in allocation 1 and holds time 5. -/
def fnDeletingCached : Function :=
  { sampleFn with deletionTimestamp := some ⟨1, 5⟩ }

/-- The freshly decoded update of `fnDeletingCached`: a new resource
version and a fresh timestamp allocation (address 2) holding the same
time 5; every other field, the spec and the finalizers included, is
unchanged. -/
def fnDeletingFresh : Function :=
  { fnDeletingCached with
      resourceVersion := "2", deletionTimestamp := some ⟨2, 5⟩ }

/-- `sampleFn` with an autoscaler target whose first metric is
external-typed. -/
def fnExternalMetric : Function :=
  { sampleFn with spec := { sampleSpec with
      horizontalPodAutoscaler := ⟨"f1-hpa", [], "f1", [MetricType.external]⟩ } }

/-- `sampleFn` with an autoscaler target and an empty metric list. -/
def fnEmptyMetrics : Function :=
  { sampleFn with spec := { sampleSpec with
      horizontalPodAutoscaler := ⟨"f1-hpa", [], "f1", []⟩ } }

/-- An ensure-path environment in which every API call succeeds. -/
def envEnsureOk : EnsureEnv := ⟨.ok, .ok, .ok, .ok, .ok, .ok, .ok⟩

/-- A process environment in which every API call succeeds. -/
def envProcessOk : ProcessEnv := ⟨⟨.ok, .ok, .ok, .ok, .ok⟩, .ok, .ok, envEnsureOk⟩

end Kubeless

namespace Kubeless

/-- C2 (counterexample) -- An update of a deletion-marked function in
which only the resource version changed (the timestamp holds the same
time, merely in a fresh allocation, as any freshly decoded watch event
delivers; spec and finalizers untouched) is enqueued: line 367 compares
the `*metav1.Time` fields by pointer, so the claimed filter — never
enqueue when the timestamp did not transition and no watched field
differs — is false of the program. -/
theorem c2_counterexample :
    updateFuncEnqueues fnDeletingCached fnDeletingFresh = true ∧
    Option.map TimePtr.time fnDeletingCached.deletionTimestamp =
      Option.map TimePtr.time fnDeletingFresh.deletionTimestamp ∧
    fnDeletingCached.spec = fnDeletingFresh.spec ∧
    fnDeletingCached.finalizers = fnDeletingFresh.finalizers := by
  decide

/-- C2 (amended) -- An update is enqueued iff the deletion-timestamp
*pointers* differ (nil on both sides compares equal; two non-nil
timestamps compare by allocation, so any update of a deletion-marked
function whose old and new objects carry distinct allocations is
enqueued regardless of the time held or the other fields), or else the
resource version changed and one of {source code, handler,
content-type, dependency descriptor, timeout, deployment override,
autoscaler override} differs; resource-version-only churn is ignored
only while the deletion timestamp is nil on both sides. -/
theorem c2_update_filter (oldF newF : Function) :
    updateFuncEnqueues oldF newF = true ↔
      (ptrNe oldF.deletionTimestamp newF.deletionTimestamp = true ∨
        (oldF.resourceVersion ≠ newF.resourceVersion ∧
          (oldF.spec.function ≠ newF.spec.function ∨
           oldF.spec.handler ≠ newF.spec.handler ∨
           oldF.spec.functionContentType ≠ newF.spec.functionContentType ∨
           oldF.spec.deps ≠ newF.spec.deps ∨
           oldF.spec.timeout ≠ newF.spec.timeout ∨
           oldF.spec.deployment ≠ newF.spec.deployment ∨
           oldF.spec.horizontalPodAutoscaler ≠ newF.spec.horizontalPodAutoscaler))) := by
  unfold updateFuncEnqueues functionObjChanged
  by_cases hdt : ptrNe oldF.deletionTimestamp newF.deletionTimestamp = true
  · simp [hdt]
  · by_cases hrv : oldF.resourceVersion = newF.resourceVersion
    · simp [hdt, hrv]
    · by_cases h1 : oldF.spec.function ≠ newF.spec.function ∨
          oldF.spec.handler ≠ newF.spec.handler ∨
          oldF.spec.functionContentType ≠ newF.spec.functionContentType ∨
          oldF.spec.deps ≠ newF.spec.deps ∨
          oldF.spec.timeout ≠ newF.spec.timeout
      · simp [h1, hdt, hrv]
        tauto
      · by_cases h2 : ¬(oldF.spec.deployment = newF.spec.deployment) ∨
            ¬(oldF.spec.horizontalPodAutoscaler = newF.spec.horizontalPodAutoscaler)
        · simp [h1, h2, hdt, hrv]
        · simp [h1, h2, hdt, hrv]

end Kubeless

namespace Kubeless

theorem tolerateNotFound_of_tolerable (r : Res) (h : tolerable r) :
    tolerateNotFound r = Res.ok := by
  rcases h with h | h <;> subst h <;> rfl

theorem deleteAutoscale_all_ok (smRes asRes : Res)
    (h1 : tolerable smRes) (h2 : tolerable asRes) :
    deleteAutoscale true smRes asRes =
      (Res.ok, [ResKind.serviceMonitor, ResKind.autoscaler]) := by
  simp [deleteAutoscale, tolerateNotFound_of_tolerable _ h1,
    tolerateNotFound_of_tolerable _ h2]

theorem deleteK8sResources_all_ok (env : DeleteEnv)
    (h1 : tolerable env.deleteDeployment) (h2 : tolerable env.deleteService)
    (h3 : tolerable env.deleteConfigMap) (h4 : tolerable env.deleteServiceMonitor)
    (h5 : tolerable env.deleteAutoscaler) :
    deleteK8sResources true env =
      (Res.ok, [ResKind.deployment, ResKind.service, ResKind.configMap,
        ResKind.serviceMonitor, ResKind.autoscaler]) := by
  have e1 := tolerateNotFound_of_tolerable _ h1
  have e2 := tolerateNotFound_of_tolerable _ h2
  have e3 := tolerateNotFound_of_tolerable _ h3
  have e45 := deleteAutoscale_all_ok _ _ h4 h5
  simp only [deleteK8sResources, e1, e2, e3, e45]
  rfl

/-- C5 -- ConfigMap data for the two pinned scenarios: a registered
python2.7 runtime yields handler, `foo.py` and `requirements.txt`
entries; the unregistered `cobol` runtime yields only the handler and
the bare module name, with no dependency entry. -/
theorem c5_configmap_scenarios :
    configMapData fakeRegistry "python2.7" "foo.bar" "function" "deps" =
      [("handler", "foo.bar"), ("foo.py", "function"), ("requirements.txt", "deps")] ∧
    configMapData fakeRegistry "cobol" "foo.bar" "function" "deps" =
      [("handler", "foo.bar"), ("foo", "function")] := by
  constructor <;> decide

/-- C6 -- Retry policy of `processNextItem`: a failing key is
re-enqueued rate-limited while its requeue count is below `maxRetries`;
at the ceiling the backoff state is cleared, the error is reported and
the key is not requeued; success clears the backoff state. -/
theorem c6_retry_policy (n : Nat) (e : KError) :
    (n < maxRetries →
      processNextItemRetry n (Res.err e) = ⟨true, false, n + 1⟩) ∧
    (¬ n < maxRetries →
      processNextItemRetry n (Res.err e) = ⟨false, true, 0⟩) ∧
    processNextItemRetry n Res.ok = ⟨false, false, 0⟩ := by
  refine ⟨fun h => ?_, fun h => ?_, rfl⟩ <;> simp [processNextItemRetry, h]

theorem c6_retry_policy_witness :
    processNextItemRetry 5 (Res.err (KError.other "boom")) = ⟨false, true, 0⟩ :=
  (c6_retry_policy 5 (KError.other "boom")).2.1 (by decide)

/-- C3 -- A non-empty dependency descriptor together with an
unregistered runtime and no explicit image override makes the
deployment ensure fail hard. -/
theorem c3_unknown_runtime_deps_fails (reg : List RuntimeInfo)
    (runtime deps : String) (hdeps : deps ≠ "")
    (hrt : findRuntime reg runtime = none) :
    ∃ msg, ensureFuncDeployment reg runtime deps "" = Except.error msg := by
  refine ⟨"The given runtime is not valid: " ++ runtime, ?_⟩
  simp [ensureFuncDeployment, hrt, hdeps]

theorem c3_unknown_runtime_deps_fails_witness :
    ∃ msg, ensureFuncDeployment fakeRegistry "cobol" "deps" "" = Except.error msg :=
  c3_unknown_runtime_deps_fails fakeRegistry "cobol" "deps" (by decide) (by decide)

/-- C4 (counterexample) -- With dependency descriptor "deps", the
unregistered runtime "cobol" and no image override, the deployment
ensure returns an error, contradicting the claim that it succeeds with
no error (this is exactly the input of `TestEnsureDeployment`'s `f7`
case, which requires an error to be thrown). -/
theorem c4_counterexample :
    ensureFuncDeployment fakeRegistry "cobol" "deps" "" =
      Except.error "The given runtime is not valid: cobol" := by
  rfl

/-- C4 (amended) -- For an unknown runtime, a non-empty dependency
descriptor makes the deployment ensure fail with an error whatever the
image override (the program never silently skips dependency staging on
this path); only an empty dependency descriptor is skipped silently,
yielding a deployment with no init container. -/
theorem c4_dependency_skip (reg : List RuntimeInfo)
    (runtime deps ov : String) (hrt : findRuntime reg runtime = none) :
    (deps ≠ "" → ensureFuncDeployment reg runtime deps ov =
      Except.error ("The given runtime is not valid: " ++ runtime)) ∧
    (deps = "" → ensureFuncDeployment reg runtime deps ov = Except.ok ⟨ov, []⟩) := by
  constructor <;> intro hd <;> simp [ensureFuncDeployment, hrt, hd]

theorem c4_dependency_skip_witness :
    ensureFuncDeployment fakeRegistry "cobol" "deps" "test-image" =
      Except.error "The given runtime is not valid: cobol" :=
  (c4_dependency_skip fakeRegistry "cobol" "deps" "test-image" (by decide)).1
    (by decide)

/-- C8 -- The applier always attempts the create first, and every
update it issues carries the server-assigned resource version of the
stored object fetched after the conflict (never the synthesized
object's own resource version) while keeping the synthesized payload. -/
theorem c8_apply_conflict (desired : KObject) (createRes : Res)
    (stored : KObject) (updateRes : Res) :
    (applyResource desired createRes stored updateRes).2.head? =
      some (ApplyAction.create desired) ∧
    (∀ o, ApplyAction.update o ∈ (applyResource desired createRes stored updateRes).2 →
      o.resourceVersion = stored.resourceVersion ∧ o.payload = desired.payload) := by
  rcases createRes with _ | e
  · constructor
    · rfl
    · intro o ho
      simp [applyResource] at ho
  · by_cases he : e.isAlreadyExists = true
    · rcases updateRes with _ | e2 <;>
        · constructor
          · simp [applyResource, he]
          · intro o ho
            simp [applyResource, he] at ho
            subst ho
            exact ⟨rfl, rfl⟩
    · constructor
      · simp [applyResource, he]
      · intro o ho
        simp [applyResource, he] at ho

theorem c8_apply_conflict_witness :
    (KObject.mk "123456" "fresh").resourceVersion =
      (KObject.mk "123456" "old").resourceVersion ∧
    (KObject.mk "123456" "fresh").payload = (KObject.mk "" "fresh").payload :=
  (c8_apply_conflict ⟨"", "fresh"⟩ (Res.err KError.alreadyExists)
      ⟨"123456", "old"⟩ Res.ok).2 ⟨"123456", "fresh"⟩ (by decide)

end Kubeless

namespace Kubeless

theorem lookup_setLabel (l : List (String × String)) (k v : String) :
    (setLabel l k v).lookup k = some v := by
  simp [setLabel, List.lookup]

/-- C1 -- Deletion path of `processItem`: with the deletion timestamp
set and the finalizer present, all five owned resources are deleted in
order (not-found tolerated as success) and the finalizer is removed
afterwards; if the delete step fails the error is returned and the
finalizer is retained; with the finalizer absent the run is a no-op
returning success.  The monitoring client is assumed configured. -/
theorem c1_delete_path (cfg : Option Deployment) (env : ProcessEnv)
    (funcObj : Function) (t : TimePtr)
    (hdt : funcObj.deletionTimestamp = some t) :
    (functionFinalizer ∉ funcObj.finalizers →
      processItem true cfg (some funcObj) env =
        ⟨EnsureOutcome.succeeded, false, [], some funcObj⟩) ∧
    (functionFinalizer ∈ funcObj.finalizers →
      ((tolerable env.del.deleteDeployment → tolerable env.del.deleteService →
        tolerable env.del.deleteConfigMap → tolerable env.del.deleteServiceMonitor →
        tolerable env.del.deleteAutoscaler → env.removeFinalizerRes = Res.ok →
        processItem true cfg (some funcObj) env =
          ⟨EnsureOutcome.succeeded, true,
            [ResKind.deployment, ResKind.service, ResKind.configMap,
              ResKind.serviceMonitor, ResKind.autoscaler],
            some { funcObj with
              finalizers := funcObj.finalizers.filter (fun f => f ≠ functionFinalizer) }⟩) ∧
       (∀ e, (deleteK8sResources true env.del).1 = Res.err e →
        (processItem true cfg (some funcObj) env).result = EnsureOutcome.failed e ∧
        (processItem true cfg (some funcObj) env).finalizerRemoved = false))) := by
  refine ⟨fun hnf => ?_, fun hf => ⟨fun h1 h2 h3 h4 h5 hrm => ?_, fun e he => ?_⟩⟩
  · simp [processItem, hdt, hnf]
  · have hdel := deleteK8sResources_all_ok env.del h1 h2 h3 h4 h5
    simp [processItem, hdt, hf, hdel, hrm]
  · simp [processItem, hdt, hf, he]

theorem c1_delete_path_witness :
    processItem true none (some fnMarkedForDeletion) envProcessOk =
      ⟨EnsureOutcome.succeeded, true,
        [ResKind.deployment, ResKind.service, ResKind.configMap,
          ResKind.serviceMonitor, ResKind.autoscaler],
        some { fnMarkedForDeletion with
          finalizers := fnMarkedForDeletion.finalizers.filter
            (fun f => f ≠ functionFinalizer) }⟩ :=
  ((c1_delete_path none envProcessOk fnMarkedForDeletion ⟨1, 1⟩ rfl).2 (by decide)).1
    (Or.inl rfl) (Or.inl rfl) (Or.inl rfl) (Or.inl rfl) (Or.inl rfl) rfl

/-- C7 (counterexample) -- A function whose autoscaler target is
declared and whose first metric is external-typed gets an autoscaler
created but no companion service monitor: the monitor is synthesized
only for an object-typed first metric, contradicting the claimed
"object or external kind". -/
theorem c7_counterexample :
    (ensureK8sResources true none envEnsureOk fnExternalMetric).createdAutoscaler = true ∧
    fnExternalMetric.spec.horizontalPodAutoscaler.metrics.head? = some MetricType.external ∧
    (ensureK8sResources true none envEnsureOk fnExternalMetric).createdServiceMonitor = false := by
  decide

/-- C7 (amended) -- An autoscaler is created during ensure only when
the spec declares an autoscaler target; when created and its first
metric is of object kind (and only then -- an external-typed first
metric does not qualify) a companion service monitor is created first;
when no target is declared, ensure deletes any previously created
service monitor and autoscaler, tolerating not-found. -/
theorem c7_autoscaler_monitor (cfg : Option Deployment) (env : EnsureEnv)
    (fn : Function) :
    ((ensureK8sResources true cfg env fn).createdAutoscaler = true →
      fn.spec.horizontalPodAutoscaler.name ≠ "" ∧
      fn.spec.horizontalPodAutoscaler.scaleTargetName ≠ "") ∧
    (∀ m ms, fn.spec.horizontalPodAutoscaler.name ≠ "" →
      fn.spec.horizontalPodAutoscaler.scaleTargetName ≠ "" →
      fn.spec.horizontalPodAutoscaler.metrics = m :: ms →
      env.ensureConfigMap = Res.ok → env.ensureService = Res.ok →
      env.ensureDeployment = Res.ok → env.createServiceMonitor = Res.ok →
      env.createAutoscaler = Res.ok →
      (ensureK8sResources true cfg env fn).createdAutoscaler = true ∧
      ((ensureK8sResources true cfg env fn).createdServiceMonitor = true ↔
        m = MetricType.object)) ∧
    (¬(fn.spec.horizontalPodAutoscaler.name ≠ "" ∧
        fn.spec.horizontalPodAutoscaler.scaleTargetName ≠ "") →
      env.ensureConfigMap = Res.ok → env.ensureService = Res.ok →
      env.ensureDeployment = Res.ok →
      tolerable env.deleteServiceMonitor → tolerable env.deleteAutoscaler →
      (ensureK8sResources true cfg env fn).outcome = EnsureOutcome.succeeded ∧
      (ensureK8sResources true cfg env fn).autoscaleDeleteAttempted =
        [ResKind.serviceMonitor, ResKind.autoscaler] ∧
      (ensureK8sResources true cfg env fn).createdAutoscaler = false) := by
  refine ⟨fun hca => ?_, fun m ms hname htarget hmet hcm hsv hdp hcsm hcas => ?_,
    fun hg hcm hsv hdp hdsm hdas => ?_⟩
  · by_cases hg : fn.spec.horizontalPodAutoscaler.name ≠ "" ∧
        fn.spec.horizontalPodAutoscaler.scaleTargetName ≠ ""
    · exact hg
    · exfalso
      revert hca
      simp only [ensureK8sResources]
      repeat' split
      all_goals simp_all
  · by_cases hm : m = MetricType.object <;> cases cfg <;>
      simp [ensureK8sResources, hcm, hsv, hdp, hcsm, hcas, hname, htarget, hmet, hm]
  · have hda := deleteAutoscale_all_ok _ _ hdsm hdas
    cases cfg <;>
      simp [ensureK8sResources, hcm, hsv, hdp, hg, hda, tolerateNotFound]

theorem c7_autoscaler_monitor_witness :
    (ensureK8sResources true none envEnsureOk fnExternalMetric).createdAutoscaler = true ∧
    ((ensureK8sResources true none envEnsureOk fnExternalMetric).createdServiceMonitor = true ↔
      MetricType.external = MetricType.object) :=
  (c7_autoscaler_monitor none envEnsureOk fnExternalMetric).2.1
    MetricType.external [] (by decide) (by decide) rfl rfl rfl rfl rfl rfl

/-- C9 (counterexample) -- The reconciler does mutate the Function
object it read from the cache: on a function with no labels and every
API call succeeding, the object after `ensureK8sResources` differs from
the object before (the label `function` was written onto it). -/
theorem c9_counterexample :
    (ensureK8sResources true none envEnsureOk sampleFn).fn ≠ sampleFn := by
  decide

/-- C9 (amended) -- On the ensure path the reconciler mutates the
cached Function object in place: `ensureK8sResources` always writes the
label `function = <name>` onto the object it was given (besides merging
the cluster default template into `Spec.Deployment` and setting
autoscaler owner references), so the cached object is not left
unchanged. -/
theorem c9_label_write (smPresent : Bool) (cfg : Option Deployment)
    (env : EnsureEnv) (fn : Function) :
    ((ensureK8sResources smPresent cfg env fn).fn.labels).lookup "function" =
      some fn.name := by
  simp only [ensureK8sResources]
  repeat' split
  all_goals simp [lookup_setLabel]

/-- C10 -- With an autoscaler target declared and an empty metric list,
`ensureK8sResources` reaches the unguarded `Metrics[0]` index once the
config map, service and deployment ensures succeed: in the total
embedding the head lookup returns `none` and the run is the Go runtime
panic. -/
theorem c10_empty_metrics_panic (smPresent : Bool) (cfg : Option Deployment)
    (env : EnsureEnv) (fn : Function)
    (hname : fn.spec.horizontalPodAutoscaler.name ≠ "")
    (htarget : fn.spec.horizontalPodAutoscaler.scaleTargetName ≠ "")
    (hm : fn.spec.horizontalPodAutoscaler.metrics = [])
    (hcm : env.ensureConfigMap = Res.ok) (hsv : env.ensureService = Res.ok)
    (hdp : env.ensureDeployment = Res.ok) :
    (ensureK8sResources smPresent cfg env fn).outcome = EnsureOutcome.panicked := by
  cases cfg <;> simp [ensureK8sResources, hcm, hsv, hdp, hname, htarget, hm]

theorem c10_empty_metrics_panic_witness :
    (ensureK8sResources true none envEnsureOk fnEmptyMetrics).outcome =
      EnsureOutcome.panicked :=
  c10_empty_metrics_panic true none envEnsureOk fnEmptyMetrics
    (by decide) (by decide) rfl rfl rfl rfl

end Kubeless
